import Mathlib

/-!
Shallow embedding of `dbusconn/protocol.go` from the ubiant/dbus-adapter
repository, together with theorems settling the specification claims.

Modelling conventions:
* Go maps become association lists `List (String × α)` with unique keys,
  inserted by prepending (only ever done when the key is absent).
* Each `sync.Mutex` becomes an explicit `locked : Bool` flag.  An operation
  that calls `Lock()` on a mutex that is already held blocks forever, since
  Go mutexes are not reentrant and all calls here happen on one goroutine;
  this is modelled by returning `none`.  `Unlock()` resets the flag.
* Side effects (dbus signal emission, bus-object exports, asynchronous
  callback launches, log writes) are recorded in order in a `List Event`.
* `*dbus.Error` return values become `Option BusError`.
* A Go run-time panic (failed type assertion) is modelled with `Except`.
-/

namespace DbusAdapter

/-- Association-list lookup, modelling Go map indexing `m[k]`. -/
def lookupKey {α : Type} (k : String) : List (String × α) → Option α
  | [] => none
  | (k', v) :: rest => if k' = k then some v else lookupKey k rest

/-- Association-list key removal, modelling Go `delete(m, k)`. -/
def eraseKey {α : Type} (k : String) : List (String × α) → List (String × α)
  | [] => []
  | (k', v) :: rest => if k' = k then eraseKey k rest else (k', v) :: eraseKey k rest

/-- An item owned by a device (`Item` lives in a file not under `src/`; only
its identifier matters to the claims about `protocol.go`). -/
structure Item where
  itemID : String
  deriving DecidableEq

/-- A device: identifiers, raw options, its item map, and its own mutex. -/
structure Device where
  devID : String
  comID : String
  typeID : String
  typeVersion : String
  options : List Nat
  items : List (String × Item)
  locked : Bool
  deriving DecidableEq

/-- Modelled from the spec: `initDevice` (defined in `device.go`, which is not
under `src/`) constructs a fresh device carrying the given identifiers, with
an empty item map and a free mutex. -/
def initDevice (devID comID typeID typeVersion : String) (options : List Nat) : Device :=
  { devID := devID, comID := comID, typeID := typeID, typeVersion := typeVersion,
    options := options, items := [], locked := false }

/-- The `Protocol` struct of `protocol.go`: device registry, readiness flag,
its embedded `sync.Mutex`, and whether `Callbacks` is non-nil
(`isNil(p.Callbacks)` in the source). -/
structure Protocol where
  devices : List (String × Device)
  ready : Bool
  locked : Bool
  hasCallbacks : Bool
  deriving DecidableEq

/-- The fresh protocol value `&Protocol{ready: false, ..., Devices: make(...)}`
built in `exportRootProtocolObject` and in `AddBridge`. -/
def freshProtocol : Protocol :=
  { devices := [], ready := false, locked := false, hasCallbacks := false }

/-- The `BridgeProto` struct: a bridge-scoped protocol object. -/
structure BridgeProto where
  protocol : Protocol
  deriving DecidableEq

/-- The parts of the `Dbus` struct that `AddBridge`/`RemoveBridge` touch:
the protocol name, the bridge map and the root protocol. -/
structure DbusState where
  protocolName : String
  bridges : List (String × BridgeProto)
  rootProtocol : Protocol
  deriving DecidableEq

/-- Modelled from the spec: the dbus object-path root (`dbusPathPrefix` is
defined in a file not under `src/`); only the `<protocol-name>_<bridgeID>`
suffix structure matters to the claims. -/
def dbusPathRoot : String := "/com/ubiant/"

/-- One recorded side effect, in program order. -/
inductive Event where
  | mapInsertDevice (devID : String)
  | exportDevice (devID : String)
  | callbackAddDevice (devID : String)
  | callbackRemoveDevice (devID : String)
  | emitDeviceAdded (devID : String)
  | emitDeviceRemoved (devID : String)
  | emitItemRemoved (devID itemID : String)
  | exportProtoObject (path : String)
  | emitBridgeAdded (path : String)
  | emitBridgeRemoved (path : String)
  | logInfo (msg : String)
  | logError (msg : String)
  | setLevel (level : Nat)
  deriving DecidableEq

/-- A dbus error result (`*dbus.Error`); the only one produced in
`protocol.go` is `dbus.ErrMsgInvalidArg`. -/
inductive BusError where
  | invalidArg
  deriving DecidableEq

/-- A Go run-time panic reachable from `protocol.go`: the unchecked type
assertion `c.Value.(string)` in `setLogLevel`. -/
inductive GoPanic where
  | typeAssertionFailed
  deriving DecidableEq

/-- `setReady`: lock, set the flag, unlock.  `none` models blocking forever
on an already-held mutex. -/
def Protocol.setReady (p : Protocol) : Option Protocol :=
  if p.locked then none
  else some { p with ready := true, locked := false }

/-- `IsReady`: lock, read the flag, unlock, return `(ready, nil)`. -/
def Protocol.isReady (p : Protocol) : Option (Bool × Option BusError) :=
  if p.locked then none
  else some (p.ready, none)

/-- Result of `AddDevice`: final protocol state, recorded side effects,
the returned `alreadyAdded` boolean and the returned `*dbus.Error`. -/
structure AddDeviceResult where
  proto : Protocol
  events : List Event
  alreadyAdded : Bool
  err : Option BusError
  deriving DecidableEq

/-- `AddDevice` (`protocol.go` lines 110–124): lock; if the id is present do
nothing; otherwise build the device with `initDevice`, insert it in the map,
export it on the bus, launch the add-device callback when callbacks are set,
and emit the "device added" signal; unlock; return `(alreadyAdded, nil)`. -/
def Protocol.addDevice (p : Protocol) (devID comID typeID typeVersion : String)
    (options : List Nat) : Option AddDeviceResult :=
  if p.locked then none
  else
    let alreadyAdded := (lookupKey devID p.devices).isSome
    if alreadyAdded then
      some { proto := { p with locked := false }, events := [],
             alreadyAdded := true, err := none }
    else
      let device := initDevice devID comID typeID typeVersion options
      some { proto := { p with devices := (devID, device) :: p.devices, locked := false },
             events :=
               [Event.mapInsertDevice devID, Event.exportDevice devID]
                 ++ (if p.hasCallbacks then [Event.callbackAddDevice devID] else [])
                 ++ [Event.emitDeviceAdded devID],
             alreadyAdded := false, err := none }

/-- Result of `RemoveDevice`: final protocol state, the final state of the
removed device object when one was removed, recorded side effects, and the
returned `*dbus.Error`. -/
structure RemoveDeviceResult where
  proto : Protocol
  removedDevice : Option Device
  events : List Event
  err : Option BusError
  deriving DecidableEq

/-- `RemoveDevice` (`protocol.go` lines 127–148): lock the protocol; if the
id is absent, unlock and return nil; otherwise lock the device, delete all
its items, launch the remove-device callback when callbacks are set, unlock
the device, delete it from the map, emit the "device removed" signal, unlock
the protocol.  `none` models blocking forever on an already-held mutex. -/
def Protocol.removeDevice (p : Protocol) (devID : String) : Option RemoveDeviceResult :=
  if p.locked then none
  else
    match lookupKey devID p.devices with
    | none =>
        some { proto := { p with locked := false }, removedDevice := none,
               events := [], err := none }
    | some device =>
        if device.locked then none
        else
          let cleared := { device with items := [], locked := false }
          some { proto := { p with devices := eraseKey devID p.devices, locked := false },
                 removedDevice := some cleared,
                 events :=
                   (if p.hasCallbacks then [Event.callbackRemoveDevice devID] else [])
                     ++ [Event.emitDeviceRemoved devID],
                 err := none }

/-- Result of `AddBridge`: final dbus state, recorded side effects, the
returned `alreadyAdded` boolean and the returned `*dbus.Error`. -/
structure AddBridgeResult where
  dbus : DbusState
  events : List Event
  alreadyAdded : Bool
  err : Option BusError
  deriving DecidableEq

/-- The object path built in `AddBridge`, `emitBridgeAdded` and
`emitBridgeRemoved`: `dbusPathPrefix + dc.ProtocolName + "_" + bridgeID`. -/
def bridgePath (protocolName bridgeID : String) : String :=
  dbusPathRoot ++ protocolName ++ "_" ++ bridgeID

/-- `AddBridge` (`protocol.go` lines 151–168): lock the root protocol; if the
bridge id is present do nothing; otherwise build a fresh `Protocol`
(readiness false, empty device map), export it at the path derived from
`<protocol-name>_<bridgeID>`, wrap it as a `BridgeProto`, insert it in the
bridge map and emit the "bridge added" signal; unlock; return
`(alreadyAdded, nil)`. -/
def addBridge (d : DbusState) (bridgeID : String) : Option AddBridgeResult :=
  if d.rootProtocol.locked then none
  else
    let alreadyAdded := (lookupKey bridgeID d.bridges).isSome
    if alreadyAdded then
      some { dbus := { d with rootProtocol := { d.rootProtocol with locked := false } },
             events := [], alreadyAdded := true, err := none }
    else
      let proto := freshProtocol
      let path := bridgePath d.protocolName bridgeID
      let bridge : BridgeProto := { protocol := proto }
      some { dbus := { d with bridges := (bridgeID, bridge) :: d.bridges,
                              rootProtocol := { d.rootProtocol with locked := false } },
             events := [Event.exportProtoObject path, Event.emitBridgeAdded path],
             alreadyAdded := false, err := none }

/-- The `for device := range bridge.Protocol.Devices` loop body of
`RemoveBridge`: call `RemoveDevice` on each key of the bridge protocol's
device map, threading the protocol state.  `none` propagates blocking. -/
def removeDevicesLoop (p : Protocol) : List String → Option (Protocol × List Event)
  | [] => some (p, [])
  | k :: ks =>
      match p.removeDevice k with
      | none => none
      | some r =>
          match removeDevicesLoop r.proto ks with
          | none => none
          | some (p', evs) => some (p', r.events ++ evs)

/-- Result of `RemoveBridge`: final dbus state, recorded side effects and
the returned `*dbus.Error`. -/
structure RemoveBridgeResult where
  dbus : DbusState
  events : List Event
  err : Option BusError
  deriving DecidableEq

/-- `RemoveBridge` (`protocol.go` lines 171–190): lock the root protocol; if
the bridge id is absent, unlock and return nil; otherwise lock the bridge's
protocol, call `RemoveDevice` on every device of that protocol (each such
call re-locks the bridge protocol's mutex, which is already held), unlock the
bridge protocol, delete the bridge from the map, emit the "bridge removed"
signal, unlock the root protocol.  `none` models blocking forever. -/
def removeBridge (d : DbusState) (bridgeID : String) : Option RemoveBridgeResult :=
  if d.rootProtocol.locked then none
  else
    match lookupKey bridgeID d.bridges with
    | none =>
        some { dbus := { d with rootProtocol := { d.rootProtocol with locked := false } },
               events := [], err := none }
    | some bridge =>
        if bridge.protocol.locked then none
        else
          let held := { bridge.protocol with locked := true }
          match removeDevicesLoop held (bridge.protocol.devices.map Prod.fst) with
          | none => none
          | some (_, evs) =>
              some { dbus := { d with bridges := eraseKey bridgeID d.bridges,
                                      rootProtocol := { d.rootProtocol with locked := false } },
                     events := evs ++ [Event.emitBridgeRemoved
                                         (bridgePath d.protocolName bridgeID)],
                     err := none }

/-- A dbus property value offered to the `LogLevel` property-change callback
(`c.Value` has dynamic type `interface{}`). -/
inductive DbusValue where
  | str (s : String)
  | int (n : Int)
  | boolean (b : Bool)
  deriving DecidableEq

/-- Modelled from the go-logging dependency: the verbosity level names, in
level order `CRITICAL .. DEBUG`. -/
def levelNames : List String := ["CRITICAL", "ERROR", "WARNING", "NOTICE", "INFO", "DEBUG"]

/-- ASCII upper-casing of one character, for case folding. -/
def charUpper (c : Char) : Char :=
  if 'a' ≤ c ∧ c ≤ 'z' then Char.ofNat (c.toNat - 32) else c

/-- Case-insensitive character-list comparison. -/
def eqFoldChars : List Char → List Char → Bool
  | [], [] => true
  | a :: as, b :: bs => (charUpper a == charUpper b) && eqFoldChars as bs
  | _, _ => false

/-- Modelled from the go-logging dependency: `strings.EqualFold` restricted
to the ASCII level names it is applied to. -/
def strEqFold (a b : String) : Bool := eqFoldChars a.data b.data

/-- Modelled from the go-logging dependency: `logging.LogLevel` matches the
string case-insensitively against the level names and returns the level
index, or an error when no name matches. -/
def logLevelParse (s : String) : Option Nat :=
  levelNames.findIdx? (fun n => strEqFold n s)

/-- Result of `setLogLevel`: recorded side effects and the returned
`*dbus.Error`. -/
structure SetLogLevelResult where
  events : List Event
  err : Option BusError
  deriving DecidableEq

/-- `setLogLevel` (`protocol.go` lines 192–203): assert the proposed value is
a string (panicking otherwise); parse it with `logging.LogLevel`; on success
apply the level process-wide, log an informational entry and return
`&dbus.ErrMsgInvalidArg`; on failure log the error and return nil. -/
def setLogLevel (v : DbusValue) : Except GoPanic SetLogLevelResult :=
  match v with
  | DbusValue.str s =>
      match logLevelParse s with
      | some level =>
          Except.ok { events := [Event.setLevel level,
                                 Event.logInfo ("Log level has been set to " ++ s)],
                      err := some BusError.invalidArg }
      | none =>
          Except.ok { events := [Event.logError ("logger: invalid log level: " ++ s)],
                      err := none }
  | _ => Except.error GoPanic.typeAssertionFailed

/-- A registry operation on one `Protocol` object, for stating invariants
over arbitrary operation sequences. -/
inductive ProtoOp where
  | addDevice (devID comID typeID typeVersion : String) (options : List Nat)
  | removeDevice (devID : String)
  | setReady
  deriving DecidableEq

/-- Apply one registry operation to a protocol (operations are invoked from
the bus, i.e. with the protocol mutex free; the `none` branch is
unreachable there and keeps the state). -/
def applyOp (p : Protocol) : ProtoOp → Protocol
  | ProtoOp.addDevice devID comID typeID typeVersion options =>
      match p.addDevice devID comID typeID typeVersion options with
      | some r => r.proto
      | none => p
  | ProtoOp.removeDevice devID =>
      match p.removeDevice devID with
      | some r => r.proto
      | none => p
  | ProtoOp.setReady =>
      match p.setReady with
      | some p' => p'
      | none => p

/-- Apply a sequence of registry operations in order. -/
def runOps (p : Protocol) : List ProtoOp → Protocol
  | [] => p
  | op :: ops => runOps (applyOp p op) ops

/-- A sample device holding two items, with a free mutex. -/
def sampleDevice : Device :=
  { devID := "d1", comID := "c", typeID := "t", typeVersion := "v", options := [],
    items := [("i1", { itemID := "i1" }), ("i2", { itemID := "i2" })], locked := false }

/-- A sample protocol owning `sampleDevice` under id `"d1"`, with callbacks set. -/
def sampleProtocol : Protocol :=
  { devices := [("d1", sampleDevice)], ready := false, locked := false, hasCallbacks := true }

/-- A dbus state with no bridges and a fresh root protocol. -/
def emptyRootState : DbusState :=
  { protocolName := "proto", bridges := [], rootProtocol := freshProtocol }

/-- A dbus state whose root protocol owns device `"d1"` and which has one
bridge `"b1"` with an empty device map. -/
def rootAndBridgeState : DbusState :=
  { protocolName := "proto",
    bridges := [("b1", { protocol := freshProtocol })],
    rootProtocol := { devices := [("d1", sampleDevice)], ready := true, locked := false,
                      hasCallbacks := false } }

/-- A dbus state whose root protocol owns device `"d1"` and whose bridge
`"b1"` also owns a device: on it `RemoveBridge "b1"` blocks. -/
def rootAndLoadedBridgeState : DbusState :=
  { protocolName := "proto",
    bridges := [("b1", { protocol := { freshProtocol with devices := [("d2", sampleDevice)] } })],
    rootProtocol := { devices := [("d1", sampleDevice)], ready := true, locked := false,
                      hasCallbacks := false } }

/-- A dbus state with one bridge `"b1"` whose protocol owns one device: the
input on which `RemoveBridge` self-deadlocks. -/
def deadlockState : DbusState :=
  { protocolName := "proto",
    bridges := [("b1", { protocol := { freshProtocol with devices := [("d1", sampleDevice)] } })],
    rootProtocol := freshProtocol }

/-- Erasing a key makes it unfindable. -/
theorem lookupKey_eraseKey_self {α : Type} (k : String) (l : List (String × α)) :
    lookupKey k (eraseKey k l) = none := by
  induction l with
  | nil => rfl
  | cons hd tl ih =>
      obtain ⟨k', v⟩ := hd
      by_cases hk : k' = k
      · simpa [eraseKey, hk] using ih
      · simpa [eraseKey, lookupKey, hk] using ih

/-- Re-clearing an already-free protocol mutex is the identity. -/
theorem Protocol.unlock_eq (p : Protocol) (h : p.locked = false) :
    ({ p with locked := false } : Protocol) = p := by
  cases p
  simp_all

/-- Re-clearing an already-free root-protocol mutex is the identity on the
dbus state. -/
theorem DbusState.unlockRoot_eq (d : DbusState) (h : d.rootProtocol.locked = false) :
    ({ d with rootProtocol := { d.rootProtocol with locked := false } } : DbusState) = d := by
  cases d
  simp_all [Protocol.unlock_eq _ h]

/-- A successful `AddDevice` leaves the mutex free and the readiness flag
unchanged. -/
theorem addDevice_proto_fields (p : Protocol) (devID comID typeID typeVersion : String)
    (options : List Nat) (r : AddDeviceResult)
    (hr : p.addDevice devID comID typeID typeVersion options = some r) :
    r.proto.locked = false ∧ r.proto.ready = p.ready := by
  by_cases hp : p.locked
  · simp [Protocol.addDevice, hp] at hr
  · by_cases hpres : (lookupKey devID p.devices).isSome
    · simp [Protocol.addDevice, hp, hpres] at hr
      simp [← hr]
    · simp [Protocol.addDevice, hp, hpres] at hr
      simp [← hr]

/-- A successful `RemoveDevice` leaves the mutex free and the readiness flag
unchanged. -/
theorem removeDevice_proto_fields (p : Protocol) (devID : String) (r : RemoveDeviceResult)
    (hr : p.removeDevice devID = some r) :
    r.proto.locked = false ∧ r.proto.ready = p.ready := by
  by_cases hp : p.locked
  · simp [Protocol.removeDevice, hp] at hr
  · cases hl : lookupKey devID p.devices with
    | none =>
        simp [Protocol.removeDevice, hp, hl] at hr
        simp [← hr]
    | some device =>
        by_cases hdl : device.locked
        · simp [Protocol.removeDevice, hp, hl, hdl] at hr
        · simp [Protocol.removeDevice, hp, hl, hdl] at hr
          simp [← hr]

/-- One registry operation keeps the protocol mutex free. -/
theorem applyOp_locked (p : Protocol) (op : ProtoOp) (h : p.locked = false) :
    (applyOp p op).locked = false := by
  cases op with
  | addDevice devID comID typeID typeVersion options =>
      simp only [applyOp]
      cases hr : p.addDevice devID comID typeID typeVersion options with
      | none => exact h
      | some r => exact (addDevice_proto_fields p devID comID typeID typeVersion options r hr).1
  | removeDevice devID =>
      simp only [applyOp]
      cases hr : p.removeDevice devID with
      | none => exact h
      | some r => exact (removeDevice_proto_fields p devID r hr).1
  | setReady =>
      simp [applyOp, Protocol.setReady, h]

/-- Once the readiness flag is true, no registry operation clears it. -/
theorem applyOp_ready_true (p : Protocol) (op : ProtoOp) (h : p.ready = true) :
    (applyOp p op).ready = true := by
  cases op with
  | addDevice devID comID typeID typeVersion options =>
      simp only [applyOp]
      cases hr : p.addDevice devID comID typeID typeVersion options with
      | none => exact h
      | some r =>
          rw [(addDevice_proto_fields p devID comID typeID typeVersion options r hr).2]
          exact h
  | removeDevice devID =>
      simp only [applyOp]
      cases hr : p.removeDevice devID with
      | none => exact h
      | some r =>
          rw [(removeDevice_proto_fields p devID r hr).2]
          exact h
  | setReady =>
      by_cases hp : p.locked <;> simp [applyOp, Protocol.setReady, hp, h]

/-- An operation other than `setReady` never changes the readiness flag. -/
theorem applyOp_ready_of_ne (p : Protocol) (op : ProtoOp) (hop : op ≠ ProtoOp.setReady) :
    (applyOp p op).ready = p.ready := by
  cases op with
  | addDevice devID comID typeID typeVersion options =>
      simp only [applyOp]
      cases hr : p.addDevice devID comID typeID typeVersion options with
      | none => rfl
      | some r => exact (addDevice_proto_fields p devID comID typeID typeVersion options r hr).2
  | removeDevice devID =>
      simp only [applyOp]
      cases hr : p.removeDevice devID with
      | none => rfl
      | some r => exact (removeDevice_proto_fields p devID r hr).2
  | setReady => exact absurd rfl hop

/-- `setReady` on an unlocked protocol turns the readiness flag on. -/
theorem applyOp_setReady_ready (p : Protocol) (h : p.locked = false) :
    (applyOp p ProtoOp.setReady).ready = true := by
  simp [applyOp, Protocol.setReady, h]

/-- Operation sequences keep the protocol mutex free. -/
theorem runOps_locked (ops : List ProtoOp) (p : Protocol) (h : p.locked = false) :
    (runOps p ops).locked = false := by
  induction ops generalizing p with
  | nil => exact h
  | cons op ops ih => exact ih (applyOp p op) (applyOp_locked p op h)

/-- Operation sequences preserve a true readiness flag. -/
theorem runOps_ready_true (ops : List ProtoOp) (p : Protocol) (h : p.ready = true) :
    (runOps p ops).ready = true := by
  induction ops generalizing p with
  | nil => exact h
  | cons op ops ih => exact ih (applyOp p op) (applyOp_ready_true p op h)

/-- A `setReady`-free operation sequence leaves the readiness flag alone. -/
theorem runOps_ready_of_no_setReady (ops : List ProtoOp) (p : Protocol)
    (h : ProtoOp.setReady ∉ ops) :
    (runOps p ops).ready = p.ready := by
  induction ops generalizing p with
  | nil => rfl
  | cons op ops ih =>
      rw [runOps, ih (applyOp p op) (fun hmem => h (List.mem_cons_of_mem op hmem)),
        applyOp_ready_of_ne p op (fun hop => h (hop ▸ List.mem_cons_self op ops))]

/-- C3: calling `AddDevice` when the id is already present returns
`alreadyExisted = true` and mutates nothing; calling it twice with the same
absent id returns `false` then `true` and grows the device count by exactly
one (the second call again mutating nothing). -/
theorem addDevice_idempotent (p : Protocol) (devID comID typeID typeVersion : String)
    (options : List Nat) (h : p.locked = false) :
    ((lookupKey devID p.devices).isSome = true →
      p.addDevice devID comID typeID typeVersion options =
        some { proto := p, events := [], alreadyAdded := true, err := none }) ∧
    ((lookupKey devID p.devices).isSome = false →
      ∃ r₁ r₂,
        p.addDevice devID comID typeID typeVersion options = some r₁ ∧
        r₁.alreadyAdded = false ∧
        r₁.proto.addDevice devID comID typeID typeVersion options = some r₂ ∧
        r₂.alreadyAdded = true ∧
        r₂.proto.devices.length = p.devices.length + 1 ∧
        r₂.proto = r₁.proto) := by
  constructor
  · intro hpres
    simp [Protocol.addDevice, h, hpres, Protocol.unlock_eq p h]
  · intro habs
    refine ⟨{ proto := { p with
                devices := (devID, initDevice devID comID typeID typeVersion options)
                  :: p.devices,
                locked := false },
              events := [Event.mapInsertDevice devID, Event.exportDevice devID]
                ++ (if p.hasCallbacks then [Event.callbackAddDevice devID] else [])
                ++ [Event.emitDeviceAdded devID],
              alreadyAdded := false, err := none },
            { proto := { p with
                devices := (devID, initDevice devID comID typeID typeVersion options)
                  :: p.devices,
                locked := false },
              events := [], alreadyAdded := true, err := none },
            ?_, rfl, ?_, rfl, ?_, rfl⟩
    · simp [Protocol.addDevice, h, habs]
    · simp [Protocol.addDevice, lookupKey]
    · simp

/-- C3 witness: concrete runs of both branches on `sampleProtocol`. -/
theorem addDevice_idempotent_witness :
    (sampleProtocol.addDevice "d1" "c" "t" "v" [] =
      some { proto := sampleProtocol, events := [], alreadyAdded := true, err := none }) ∧
    (∃ r₁ r₂,
      sampleProtocol.addDevice "d2" "c" "t" "v" [] = some r₁ ∧
      r₁.alreadyAdded = false ∧
      r₁.proto.addDevice "d2" "c" "t" "v" [] = some r₂ ∧
      r₂.alreadyAdded = true ∧
      r₂.proto.devices.length = sampleProtocol.devices.length + 1 ∧
      r₂.proto = r₁.proto) :=
  ⟨(addDevice_idempotent sampleProtocol "d1" "c" "t" "v" [] rfl).1 (by decide),
   (addDevice_idempotent sampleProtocol "d2" "c" "t" "v" [] rfl).2 (by decide)⟩

/-- C4: `RemoveDevice` on an absent id is a silent no-op: the protocol state
(device map and readiness flag) is returned unchanged, no event is recorded
and the returned dbus error is nil. -/
theorem removeDevice_absent_noop (p : Protocol) (devID : String)
    (h : p.locked = false) (habs : lookupKey devID p.devices = none) :
    p.removeDevice devID =
      some { proto := p, removedDevice := none, events := [], err := none } := by
  simp [Protocol.removeDevice, h, habs, Protocol.unlock_eq p h]

/-- C4 witness: removing the absent id `"nope"` from `sampleProtocol`. -/
theorem removeDevice_absent_noop_witness :
    sampleProtocol.removeDevice "nope" =
      some { proto := sampleProtocol, removedDevice := none, events := [], err := none } :=
  removeDevice_absent_noop sampleProtocol "nope" rfl (by decide)

/-- C5: `RemoveDevice` on a present device clears all its items, deletes the
device from the map, records exactly one "device removed" signal and no
per-item removal signal, and returns nil. -/
theorem removeDevice_clears_items_single_signal (p : Protocol) (devID : String)
    (device : Device) (h : p.locked = false)
    (hdev : lookupKey devID p.devices = some device) (hdl : device.locked = false) :
    ∃ r, p.removeDevice devID = some r ∧
      r.removedDevice = some { device with items := [], locked := false } ∧
      lookupKey devID r.proto.devices = none ∧
      (r.events.filter (fun e => match e with
        | Event.emitDeviceRemoved id => id == devID
        | _ => false)).length = 1 ∧
      (r.events.filter (fun e => match e with
        | Event.emitItemRemoved _ _ => true
        | _ => false)).length = 0 ∧
      r.err = none := by
  refine ⟨{ proto := { p with devices := eraseKey devID p.devices, locked := false },
            removedDevice := some { device with items := [], locked := false },
            events := (if p.hasCallbacks then [Event.callbackRemoveDevice devID] else [])
              ++ [Event.emitDeviceRemoved devID],
            err := none }, ?_, rfl, ?_, ?_, ?_, rfl⟩
  · simp [Protocol.removeDevice, h, hdev, hdl]
  · exact lookupKey_eraseKey_self devID p.devices
  · cases p.hasCallbacks <;> simp [List.filter]
  · cases p.hasCallbacks <;> simp [List.filter]

/-- C5 witness: removing device `"d1"` (which holds two items) from
`sampleProtocol`. -/
theorem removeDevice_clears_items_single_signal_witness :
    ∃ r, sampleProtocol.removeDevice "d1" = some r ∧
      r.removedDevice = some { sampleDevice with items := [], locked := false } ∧
      lookupKey "d1" r.proto.devices = none ∧
      (r.events.filter (fun e => match e with
        | Event.emitDeviceRemoved id => id == "d1"
        | _ => false)).length = 1 ∧
      (r.events.filter (fun e => match e with
        | Event.emitItemRemoved _ _ => true
        | _ => false)).length = 0 ∧
      r.err = none :=
  removeDevice_clears_items_single_signal sampleProtocol "d1" sampleDevice rfl (by decide) rfl

/-- C6: a protocol's readiness flag starts false and only `setReady` turns
it on: `IsReady` returns `(false, nil)` after any `setReady`-free operation
sequence from the fresh state, and `(true, nil)` after any sequence that
performs `setReady`, whatever operations follow. -/
theorem protocol_ready_monotone (ops ops₂ : List ProtoOp) :
    (ProtoOp.setReady ∉ ops →
      (runOps freshProtocol ops).isReady = some (false, none)) ∧
    (runOps (applyOp (runOps freshProtocol ops) ProtoOp.setReady) ops₂).isReady
      = some (true, none) := by
  constructor
  · intro hno
    have hl : (runOps freshProtocol ops).locked = false := runOps_locked ops freshProtocol rfl
    have hr : (runOps freshProtocol ops).ready = false :=
      (runOps_ready_of_no_setReady ops freshProtocol hno)
    simp [Protocol.isReady, hl, hr]
  · have hl₀ : (runOps freshProtocol ops).locked = false := runOps_locked ops freshProtocol rfl
    have hr₁ : (applyOp (runOps freshProtocol ops) ProtoOp.setReady).ready = true :=
      applyOp_setReady_ready (runOps freshProtocol ops) hl₀
    have hl₁ : (applyOp (runOps freshProtocol ops) ProtoOp.setReady).locked = false :=
      applyOp_locked (runOps freshProtocol ops) ProtoOp.setReady hl₀
    have hr₂ := runOps_ready_true ops₂ _ hr₁
    have hl₂ := runOps_locked ops₂ _ hl₁
    simp [Protocol.isReady, hl₂, hr₂]

/-- C6 witness: one concrete `setReady`-free run and one run performing
`setReady` followed by further operations. -/
theorem protocol_ready_monotone_witness :
    (runOps freshProtocol [ProtoOp.addDevice "d1" "c" "t" "v" []]).isReady
      = some (false, none) ∧
    (runOps (applyOp (runOps freshProtocol [ProtoOp.addDevice "d1" "c" "t" "v" []])
        ProtoOp.setReady) [ProtoOp.removeDevice "d1"]).isReady = some (true, none) :=
  ⟨(protocol_ready_monotone [ProtoOp.addDevice "d1" "c" "t" "v" []]
      [ProtoOp.removeDevice "d1"]).1 (by decide),
   (protocol_ready_monotone [ProtoOp.addDevice "d1" "c" "t" "v" []]
      [ProtoOp.removeDevice "d1"]).2⟩

/-- C7: `AddBridge` on a present id returns `true` with no mutation; on an
absent id it inserts a bridge wrapping a fresh protocol (readiness false,
empty device map), records the bus-object export at the path derived from
`<protocol-name>_<bridgeID>` followed by the "bridge added" signal, and
returns `false`. -/
theorem addBridge_behavior (d : DbusState) (bridgeID : String)
    (h : d.rootProtocol.locked = false) :
    ((lookupKey bridgeID d.bridges).isSome = true →
      addBridge d bridgeID =
        some { dbus := d, events := [], alreadyAdded := true, err := none }) ∧
    ((lookupKey bridgeID d.bridges).isSome = false →
      addBridge d bridgeID =
        some { dbus := { d with bridges :=
                 (bridgeID, ({ protocol := freshProtocol } : BridgeProto)) :: d.bridges },
               events := [Event.exportProtoObject (bridgePath d.protocolName bridgeID),
                          Event.emitBridgeAdded (bridgePath d.protocolName bridgeID)],
               alreadyAdded := false, err := none } ∧
      freshProtocol.ready = false ∧ freshProtocol.devices = [] ∧
      bridgePath d.protocolName bridgeID = dbusPathRoot ++ d.protocolName ++ "_" ++ bridgeID) := by
  constructor
  · intro hpres
    simp [addBridge, h, hpres, DbusState.unlockRoot_eq d h]
  · intro habs
    refine ⟨?_, rfl, rfl, rfl⟩
    simp [addBridge, h, habs, Protocol.unlock_eq d.rootProtocol h]

/-- C7 witness: concrete runs of both branches. -/
theorem addBridge_behavior_witness :
    (addBridge rootAndBridgeState "b1" =
      some { dbus := rootAndBridgeState, events := [], alreadyAdded := true, err := none }) ∧
    (addBridge emptyRootState "b1" =
      some { dbus := { emptyRootState with bridges :=
               [("b1", ({ protocol := freshProtocol } : BridgeProto))] },
             events := [Event.exportProtoObject (bridgePath "proto" "b1"),
                        Event.emitBridgeAdded (bridgePath "proto" "b1")],
             alreadyAdded := false, err := none }) :=
  ⟨(addBridge_behavior rootAndBridgeState "b1" rfl).1 (by decide),
   ((addBridge_behavior emptyRootState "b1" rfl).2 (by decide)).1⟩

/-- C8: when `AddDevice` inserts a new device, the map insert and the bus
export are both recorded strictly before the "device added" signal, which
comes last. -/
theorem addDevice_export_insert_before_signal (p : Protocol)
    (devID comID typeID typeVersion : String) (options : List Nat)
    (h : p.locked = false) (habs : lookupKey devID p.devices = none) :
    ∃ r, p.addDevice devID comID typeID typeVersion options = some r ∧
      r.events.getLast? = some (Event.emitDeviceAdded devID) ∧
      Event.exportDevice devID ∈ r.events.dropLast ∧
      Event.mapInsertDevice devID ∈ r.events.dropLast := by
  refine ⟨{ proto := { p with
              devices := (devID, initDevice devID comID typeID typeVersion options)
                :: p.devices,
              locked := false },
            events := [Event.mapInsertDevice devID, Event.exportDevice devID]
              ++ (if p.hasCallbacks then [Event.callbackAddDevice devID] else [])
              ++ [Event.emitDeviceAdded devID],
            alreadyAdded := false, err := none }, ?_, ?_, ?_, ?_⟩
  · simp [Protocol.addDevice, h, habs]
  · cases p.hasCallbacks <;> simp
  · cases p.hasCallbacks <;> simp
  · cases p.hasCallbacks <;> simp

/-- C8 witness: inserting the absent id `"d9"` into `sampleProtocol`. -/
theorem addDevice_export_insert_before_signal_witness :
    ∃ r, sampleProtocol.addDevice "d9" "c" "t" "v" [] = some r ∧
      r.events.getLast? = some (Event.emitDeviceAdded "d9") ∧
      Event.exportDevice "d9" ∈ r.events.dropLast ∧
      Event.mapInsertDevice "d9" ∈ r.events.dropLast :=
  addDevice_export_insert_before_signal sampleProtocol "d9" "c" "t" "v" [] rfl (by decide)

/-- C9: bridges and the root device set are independent: removing bridge
`"b1"` (whose protocol has no devices) leaves the root protocol's device map
untouched, and a subsequent `RemoveDevice "d1"` on the root empties it with
exactly one "device removed" signal. -/
theorem removeBridge_preserves_root_devices (d : DbusState) (dev : Device)
    (bp : BridgeProto)
    (hroot : d.rootProtocol.locked = false)
    (hdevs : d.rootProtocol.devices = [("d1", dev)])
    (hdl : dev.locked = false)
    (hb : lookupKey "b1" d.bridges = some bp)
    (hbd : bp.protocol.devices = [])
    (hbl : bp.protocol.locked = false) :
    ∃ r, removeBridge d "b1" = some r ∧
      r.dbus.rootProtocol.devices = [("d1", dev)] ∧
      ∃ r₂, r.dbus.rootProtocol.removeDevice "d1" = some r₂ ∧
        r₂.proto.devices = [] ∧
        (r₂.events.filter (fun e => match e with
          | Event.emitDeviceRemoved id => id == "d1"
          | _ => false)).length = 1 := by
  have hrb : removeBridge d "b1" =
      some { dbus := { d with bridges := eraseKey "b1" d.bridges,
                              rootProtocol := { d.rootProtocol with locked := false } },
             events := [Event.emitBridgeRemoved (bridgePath d.protocolName "b1")],
             err := none } := by
    simp [removeBridge, hroot, hb, hbd, hbl, removeDevicesLoop]
  refine ⟨_, hrb, by simp [hdevs], ?_⟩
  refine ⟨{ proto := { { d.rootProtocol with locked := false } with
              devices := eraseKey "d1" ({ d.rootProtocol with locked := false } : Protocol).devices,
              locked := false },
            removedDevice := some { dev with items := [], locked := false },
            events := (if d.rootProtocol.hasCallbacks then
                [Event.callbackRemoveDevice "d1"] else [])
              ++ [Event.emitDeviceRemoved "d1"],
            err := none }, ?_, ?_, ?_⟩
  · simp [Protocol.removeDevice, hdevs, lookupKey, hdl]
  · simp [hdevs, eraseKey]
  · cases d.rootProtocol.hasCallbacks <;> simp [List.filter]

/-- C9 witness: the concrete state `rootAndBridgeState`. -/
theorem removeBridge_preserves_root_devices_witness :
    ∃ r, removeBridge rootAndBridgeState "b1" = some r ∧
      r.dbus.rootProtocol.devices = [("d1", sampleDevice)] ∧
      ∃ r₂, r.dbus.rootProtocol.removeDevice "d1" = some r₂ ∧
        r₂.proto.devices = [] ∧
        (r₂.events.filter (fun e => match e with
          | Event.emitDeviceRemoved id => id == "d1"
          | _ => false)).length = 1 :=
  removeBridge_preserves_root_devices rootAndBridgeState sampleDevice
    { protocol := freshProtocol } rfl rfl rfl (by decide) rfl rfl

/-- C9 counterexample: on `rootAndLoadedBridgeState`, where the root
protocol owns `"d1"` and bridge `"b1"` exists but holds a device,
`RemoveBridge "b1"` yields no resulting state at all (the device loop
re-acquires the bridge protocol's held mutex and blocks), so the claim's
conclusion fails as stated. -/
theorem removeBridge_no_result_with_loaded_bridge :
    ¬ ∃ r, removeBridge rootAndLoadedBridgeState "b1" = some r := by
  intro hex
  obtain ⟨r, hr⟩ := hex
  have hnone : removeBridge rootAndLoadedBridgeState "b1" = none := by decide
  rw [hnone] at hr
  exact Option.noConfusion hr

/-- C2: the `LogLevel` property callback, given a string value: when the
string parses as a verbosity level it applies the level, logs an
informational entry and still returns the "invalid argument" bus error; when
parsing fails it logs the error and returns no bus error. -/
theorem setLogLevel_paths (s : String) :
    (∀ level, logLevelParse s = some level →
      setLogLevel (DbusValue.str s) =
        Except.ok { events := [Event.setLevel level,
                               Event.logInfo ("Log level has been set to " ++ s)],
                    err := some BusError.invalidArg }) ∧
    (logLevelParse s = none →
      setLogLevel (DbusValue.str s) =
        Except.ok { events := [Event.logError ("logger: invalid log level: " ++ s)],
                    err := none }) := by
  constructor
  · intro level hlevel
    simp [setLogLevel, hlevel]
  · intro hfail
    simp [setLogLevel, hfail]

/-- C2 witness: the parsing string `"INFO"` (level 4) and the non-parsing
string `"bogus"`. -/
theorem setLogLevel_paths_witness :
    setLogLevel (DbusValue.str "INFO") =
      Except.ok { events := [Event.setLevel 4,
                             Event.logInfo ("Log level has been set to " ++ "INFO")],
                  err := some BusError.invalidArg } ∧
    setLogLevel (DbusValue.str "bogus") =
      Except.ok { events := [Event.logError ("logger: invalid log level: " ++ "bogus")],
                  err := none } :=
  ⟨(setLogLevel_paths "INFO").1 4 (by decide),
   (setLogLevel_paths "bogus").2 (by decide)⟩

/-- C10: the `LogLevel` property callback type-asserts the proposed value to
a string without a check: on any non-string value it panics instead of
returning a bus error. -/
theorem setLogLevel_nonstring_panic (v : DbusValue) (h : ∀ s, v ≠ DbusValue.str s) :
    setLogLevel v = Except.error GoPanic.typeAssertionFailed := by
  cases v with
  | str s => exact absurd rfl (h s)
  | int n => rfl
  | boolean b => rfl

/-- C10 witness: the integer value 3 makes the callback panic. -/
theorem setLogLevel_nonstring_panic_witness :
    setLogLevel (DbusValue.int 3) = Except.error GoPanic.typeAssertionFailed :=
  setLogLevel_nonstring_panic (DbusValue.int 3) (fun _ hs => nomatch hs)

/-- C1 (code bug): on `deadlockState`, whose bridge `"b1"` owns one device,
`RemoveBridge "b1"` blocks forever (`none`): it holds the bridge protocol's
mutex when the device loop calls `RemoveDevice`, which re-acquires that same
non-reentrant mutex — contradicting the claim that it terminates with zero
devices and one "bridge removed" signal. -/
theorem removeBridge_deadlock_on_nonempty_bridge :
    removeBridge deadlockState "b1" = none := by decide

end DbusAdapter
